import Mathlib

/-!
Verification of `Scripts/getPackages.py` (artifact staging script).

The script is a linear pipeline over the file system:
1. run `nuget restore <config> -PackagesDirectory <tempdir>` and inspect the exit code;
2. reset the `Plugins` output directory (`shutil.rmtree` if it exists and is a
   directory, then `os.mkdir`);
3. glob `*/lib/netstandard2.0/*.dll` inside the temporary directory;
4. abort when fewer than `EXPECTED_PLUGIN_COUNT = 8` files matched;
5. `shutil.move` every matched file into the output directory;
6. `temp_directory.cleanup()`.

The embedding models the file-system locations the script touches: the state of
the `Plugins` output path (absent, occupied by a non-directory entry, or a
directory holding a flat list of base names) and the contents of the temporary
directory (a list of relative paths, each a list of components).  The nuget
invocation is an input: its exit code and the files it deposited in the
temporary directory.
-/

namespace GetPackages

/-- A path inside the temporary directory, as its list of components relative
to the temporary directory root (e.g. `["pkgA", "lib", "netstandard2.0", "a.dll"]`). -/
abbrev TempPath := List String

/-- Constant `EXPECTED_PLUGIN_COUNT = 8` from the script. -/
def EXPECTED_PLUGIN_COUNT : Nat := 8

/-- State of the output path `Plugins`: nothing there, a non-directory entry
there, or a directory whose contents are a flat list of file base names. -/
inductive FsNode where
  | absent
  | entry
  | dir (contents : List String)
  deriving DecidableEq, Repr

/-- Embeds the test `os.path.exists(p) and os.path.isdir(p)` (line 25):
true exactly when a directory is at the path. -/
def existsAndIsDir : FsNode → Bool
  | .dir _ => true
  | _ => false

/-- Embeds line 25-26: `shutil.rmtree(plugins_output_path)` guarded by the
exists-and-isdir test.  A non-directory entry at the path is left in place. -/
def rmtreeIfDir (s : FsNode) : FsNode :=
  if existsAndIsDir s then .absent else s

/-- Embeds `os.mkdir(plugins_output_path)` (line 27): creates an empty
directory when nothing is at the path, raises (`none`) when the path is
occupied (Python `FileExistsError`). -/
def mkdir : FsNode → Option FsNode
  | .absent => some (.dir [])
  | _ => none

/-- Embeds lines 25-27 of the script, the operation the spec calls
`resetOutputDirectory`: conditional recursive delete followed by `os.mkdir`.
`none` means the run raised an uncaught `OSError` at `os.mkdir`. -/
def resetOutputDirectory (s : FsNode) : Option FsNode :=
  mkdir (rmtreeIfDir s)

/-- Whether the character list `suf` is a suffix of `s`. -/
def charSuffix (s suf : List Char) : Bool :=
  if suf.length ≤ s.length then s.drop (s.length - suf.length) == suf else false

/-- Whether a name matches the glob component `*.dll`: any name ending in
`.dll`.  The `*` of `fnmatch` also matches the empty sequence and
`pathlib.Path.glob` matches dot-prefixed names, so `.dll` and `.hidden.dll`
both match. -/
def dllMatches (s : String) : Bool :=
  charSuffix s.data ".dll".data

/-- Embeds the pattern `*/lib/netstandard2.0/*.dll` of
`Path(temp_directory.name).glob(...)` (line 29): exactly four components, the
first arbitrary (`pathlib.Path.glob`'s `*` matches every directory entry,
dot-prefixed ones included), the middle two fixed, the last ending in
`.dll`. -/
def matchesGlob : TempPath → Bool
  | [_pkg, d1, d2, name] =>
      d1 == "lib" && d2 == "netstandard2.0" && dllMatches name
  | _ => false

/-- Base name of a path: its last component (empty for the empty path). -/
def baseName : TempPath → String
  | [] => ""
  | [n] => n
  | _ :: rest => baseName rest

/-- Outcome of the move loop (lines 33-34): either every file was moved, or a
`shutil.Error` aborted the loop; both carry the temporary-directory contents
and the flat output-directory contents at that point. -/
inductive MoveOutcome where
  | ok (temp : List TempPath) (out : List String)
  | collision (temp : List TempPath) (out : List String)
  deriving DecidableEq, Repr

/-- Embeds the loop `for filepath in filepaths: shutil.move(filepath,
plugins_output_path)` (lines 33-34).  `shutil.move` with a directory
destination computes `real_dst = dst / basename(src)` and raises
`shutil.Error` when `real_dst` already exists; otherwise the file leaves the
temporary directory and its base name is appended to the output directory. -/
def moveAll : List TempPath → List TempPath → List String → MoveOutcome
  | [], temp, out => .ok temp out
  | m :: ms, temp, out =>
    if baseName m ∈ out then .collision temp out
    else moveAll ms (temp.erase m) (out ++ [baseName m])

/-- The two fatal exceptions of the script plus the two uncaught OS-level
errors its file-system calls can raise. -/
inductive RunError where
  | restoreFailed
  | mkdirFailed
  | insufficientArtifacts
  | moveCollision
  deriving DecidableEq, Repr

/-- Input of one run: the exit code of `nuget restore`, the files the restore
deposited in the temporary directory, and the prior state of the `Plugins`
output path. -/
structure RunInput where
  nugetReturnCode : Nat
  tempFiles : List TempPath
  pluginsPrior : FsNode
  deriving DecidableEq, Repr

/-- Observable outcome of one run: the error it terminated with (if any), the
final state of the output path, the final state of the temporary directory
(`none` once `cleanup()` deleted it), the temporary-directory contents when
the move loop stopped, and whether the reset block and the cleanup call were
reached. -/
structure RunResult where
  error : Option RunError
  pluginsOutput : FsNode
  tempDir : Option (List TempPath)
  tempAfterMoves : List TempPath
  resetRan : Bool
  cleanupRan : Bool
  deriving DecidableEq, Repr

/-- The `filepaths` list of line 29: the files of a temporary directory
matched by the glob, in directory order. -/
def matchedOf (tempFiles : List TempPath) : List TempPath :=
  tempFiles.filter matchesGlob

/-- The files matched by the glob during a run with input `i`. -/
def matchedFiles (i : RunInput) : List TempPath :=
  matchedOf i.tempFiles

/-- Embeds lines 29-36, the part of the script that runs once the output
directory has been reset to a fresh empty directory: glob, count check, move
loop, cleanup. -/
def globAndMove (tempFiles : List TempPath) : RunResult :=
  if (matchedOf tempFiles).length < EXPECTED_PLUGIN_COUNT then
    { error := some .insufficientArtifacts, pluginsOutput := .dir [],
      tempDir := some tempFiles, tempAfterMoves := tempFiles,
      resetRan := true, cleanupRan := false }
  else
    match moveAll (matchedOf tempFiles) tempFiles [] with
    | .collision temp' out' =>
      { error := some .moveCollision, pluginsOutput := .dir out',
        tempDir := some temp', tempAfterMoves := temp',
        resetRan := true, cleanupRan := false }
    | .ok temp' out' =>
      { error := none, pluginsOutput := .dir out',
        tempDir := none, tempAfterMoves := temp',
        resetRan := true, cleanupRan := true }

/-- Embeds the whole script (lines 20-36): exit-code check, output-directory
reset, then `globAndMove`. -/
def run (i : RunInput) : RunResult :=
  if i.nugetReturnCode > 0 then
    { error := some .restoreFailed, pluginsOutput := i.pluginsPrior,
      tempDir := some i.tempFiles, tempAfterMoves := i.tempFiles,
      resetRan := false, cleanupRan := false }
  else
    match resetOutputDirectory i.pluginsPrior with
    | none =>
      { error := some .mkdirFailed, pluginsOutput := rmtreeIfDir i.pluginsPrior,
        tempDir := some i.tempFiles, tempAfterMoves := i.tempFiles,
        resetRan := true, cleanupRan := false }
    | some _ => globAndMove i.tempFiles

/-- Boolean test that the output path is a directory holding exactly the base
names of the matched files (as a set). -/
def outputExactlyMatches (i : RunInput) (r : RunResult) : Bool :=
  match r.pluginsOutput with
  | .dir l =>
      l.all (fun b => decide (b ∈ (matchedFiles i).map baseName)) &&
      ((matchedFiles i).map baseName).all (fun b => decide (b ∈ l))
  | _ => false

/-! Helper lemmas about the reset step. -/

/-- The reset raises exactly when a non-directory entry occupies the output
path. -/
theorem resetOutputDirectory_eq_none_iff (s : FsNode) :
    resetOutputDirectory s = none ↔ s = FsNode.entry := by
  cases s <;> simp [resetOutputDirectory, rmtreeIfDir, existsAndIsDir, mkdir]

/-- When the reset succeeds, the output path is a fresh empty directory. -/
theorem resetOutputDirectory_eq_some (s : FsNode) (d : FsNode)
    (h : resetOutputDirectory s = some d) : d = FsNode.dir [] := by
  cases s <;> simp [resetOutputDirectory, rmtreeIfDir, existsAndIsDir, mkdir] at h <;>
    exact h.symm

/-! Helper lemmas about the move loop. -/

/-- When the move loop finishes, the output directory holds the prior contents
followed by the base names of the moved files, in order. -/
theorem moveAll_ok_out (ms : List TempPath) :
    ∀ temp out temp' out', moveAll ms temp out = .ok temp' out' →
      out' = out ++ ms.map baseName := by
  induction ms with
  | nil =>
    intro temp out temp' out' h
    simp only [moveAll, MoveOutcome.ok.injEq] at h
    simp [h.2.symm]
  | cons m ms ih =>
    intro temp out temp' out' h
    simp only [moveAll] at h
    split at h
    · exact absurd h (by simp)
    · have := ih _ _ _ _ h
      simp [this]

/-- The move loop only removes files from the temporary directory. -/
theorem moveAll_ok_temp_subset (ms : List TempPath) :
    ∀ temp out temp' out', moveAll ms temp out = .ok temp' out' →
      temp' ⊆ temp := by
  induction ms with
  | nil =>
    intro temp out temp' out' h
    simp only [moveAll, MoveOutcome.ok.injEq] at h
    exact h.1 ▸ List.Subset.refl _
  | cons m ms ih =>
    intro temp out temp' out' h
    simp only [moveAll] at h
    split at h
    · exact absurd h (by simp)
    · exact (ih _ _ _ _ h).trans (List.erase_subset _ _)

/-- When the move loop finishes without a collision, the moved base names are
pairwise distinct and distinct from the prior output contents. -/
theorem moveAll_ok_bases (ms : List TempPath) :
    ∀ temp out temp' out', moveAll ms temp out = .ok temp' out' →
      (ms.map baseName).Nodup ∧ ∀ b ∈ ms.map baseName, b ∉ out := by
  induction ms with
  | nil =>
    intro temp out temp' out' _
    simp
  | cons m ms ih =>
    intro temp out temp' out' h
    simp only [moveAll] at h
    split at h
    · exact absurd h (by simp)
    · rename_i hnotmem
      obtain ⟨hnd, hnotin⟩ := ih _ _ _ _ h
      refine ⟨List.nodup_cons.mpr ⟨fun hmem => ?_, hnd⟩, ?_⟩
      · have := hnotin _ hmem
        simp at this
      · intro b hb
        simp only [List.map_cons, List.mem_cons] at hb
        rcases hb with hb | hb
        · exact hb ▸ hnotmem
        · intro hbo
          exact hnotin b hb (List.mem_append_left _ hbo)

/-- When the move loop finishes, every moved file is gone from the temporary
directory (its original nested location), provided the directory listing had
no duplicate paths. -/
theorem moveAll_ok_not_mem_temp (ms : List TempPath) :
    ∀ temp out temp' out', temp.Nodup → moveAll ms temp out = .ok temp' out' →
      ∀ p ∈ ms, p ∉ temp' := by
  induction ms with
  | nil =>
    intro temp out temp' out' _ _ p hp
    simp at hp
  | cons m ms ih =>
    intro temp out temp' out' hnd h p hp
    simp only [moveAll] at h
    split at h
    · exact absurd h (by simp)
    · rcases List.mem_cons.mp hp with rfl | hp
      · intro hmem
        have hsub := moveAll_ok_temp_subset ms _ _ _ _ h
        have : p ∈ temp.erase p := hsub hmem
        rw [hnd.mem_erase_iff] at this
        exact this.1 rfl
      · exact ih _ _ _ _ (hnd.erase m) h p hp

/-- A collision aborts the loop with output contents that are still free of
duplicates: nothing was overwritten before the abort. -/
theorem moveAll_collision_out_nodup (ms : List TempPath) :
    ∀ temp out temp' out', out.Nodup → moveAll ms temp out = .collision temp' out' →
      out'.Nodup := by
  induction ms with
  | nil =>
    intro temp out temp' out' _ h
    exact absurd h (by simp [moveAll])
  | cons m ms ih =>
    intro temp out temp' out' hnd h
    simp only [moveAll] at h
    split at h
    · simp only [MoveOutcome.collision.injEq] at h
      exact h.2 ▸ hnd
    · rename_i hnotmem
      refine ih _ _ _ _ ?_ h
      simp [List.nodup_append, hnd, hnotmem]

/-- After the glob-count-move phase, the output path is always a directory. -/
theorem globAndMove_pluginsOutput_dir (tf : List TempPath) :
    ∃ l, (globAndMove tf).pluginsOutput = FsNode.dir l := by
  unfold globAndMove
  split
  · exact ⟨[], rfl⟩
  · split <;> exact ⟨_, rfl⟩

/-! Concrete inputs used as witnesses and counterexamples. -/

/-- A restored package file `pkg/lib/netstandard2.0/name` inside the
temporary directory. -/
def dll (pkg name : String) : TempPath := [pkg, "lib", "netstandard2.0", name]

/-- Eight matching files with pairwise-distinct base names. -/
def eightDlls : List TempPath :=
  [dll "p1" "a1.dll", dll "p2" "a2.dll", dll "p3" "a3.dll", dll "p4" "a4.dll",
   dll "p5" "a5.dll", dll "p6" "a6.dll", dll "p7" "a7.dll", dll "p8" "a8.dll"]

/-- A run where the restore succeeds, eight distinct files match and the
output path starts out absent. -/
def okInput : RunInput := ⟨0, eightDlls, FsNode.absent⟩

/-- A run where the restore succeeds but a non-directory entry occupies the
output path. -/
def priorEntryInput : RunInput := ⟨0, [], FsNode.entry⟩

/-- A run where the restore succeeds, eight files match, but two of them
share the base name `a.dll`. -/
def dupBaseInput : RunInput :=
  ⟨0, [dll "p1" "a.dll", dll "p2" "a.dll", dll "p3" "b.dll", dll "p4" "c.dll",
       dll "p5" "d.dll", dll "p6" "e.dll", dll "p7" "f.dll", dll "p8" "g.dll"],
   FsNode.absent⟩

/-! Claim theorems. -/

/-- C2: the run aborts with the restore-failure error exactly when the
external restore command exits with a non-zero status; on exit status 0 that
error is never raised. -/
theorem claim_C2_restoreFailed_iff (i : RunInput) :
    (run i).error = some RunError.restoreFailed ↔ 0 < i.nugetReturnCode := by
  unfold run
  split
  · rename_i hrc
    simpa using hrc
  · rename_i hrc
    simp only [gt_iff_lt, not_lt, Nat.le_zero] at hrc
    constructor
    · intro h
      exfalso
      split at h
      · simp at h
      · unfold globAndMove at h
        split at h
        · simp at h
        · split at h <;> simp at h
    · intro h
      omega

/-- C4: when the restore command exits non-zero, the run aborts with the
restore-failure error before any modification of the output path: the prior
state is left exactly as it was and the reset block never executes. -/
theorem claim_C4_abort_before_reset (i : RunInput) (h : 0 < i.nugetReturnCode) :
    (run i).pluginsOutput = i.pluginsPrior ∧ (run i).resetRan = false ∧
    (run i).error = some RunError.restoreFailed := by
  unfold run
  split
  · exact ⟨rfl, rfl, rfl⟩
  · rename_i hrc
    exact absurd h hrc

/-- Witness for C4 at a concrete failing restore. -/
theorem claim_C4_witness :
    (run ⟨1, eightDlls, FsNode.absent⟩).pluginsOutput = FsNode.absent ∧
    (run ⟨1, eightDlls, FsNode.absent⟩).resetRan = false ∧
    (run ⟨1, eightDlls, FsNode.absent⟩).error = some RunError.restoreFailed :=
  claim_C4_abort_before_reset ⟨1, eightDlls, FsNode.absent⟩ (by decide)

/-- C6 counterexample: the claim quantifies over every prior state of the
output path, but when a non-directory entry occupies the path the reset does
not delete it and `os.mkdir` raises instead of producing an empty directory. -/
theorem claim_C6_counterexample :
    resetOutputDirectory FsNode.entry ≠ some (FsNode.dir []) := by decide

/-- C6 (amended): on every prior state other than a non-directory entry at
the path — absent, or a directory with any contents — the reset deletes
whatever directory is present and yields an existing empty directory, raising
no error when nothing was present; when a non-directory entry occupies the
path the reset raises at `os.mkdir` instead. -/
theorem claim_C6_reset (s : FsNode) :
    (s ≠ FsNode.entry → resetOutputDirectory s = some (FsNode.dir [])) ∧
    (s = FsNode.entry → resetOutputDirectory s = none) := by
  cases s <;> simp [resetOutputDirectory, rmtreeIfDir, existsAndIsDir, mkdir]

/-- Witness for C6 at the absent prior state. -/
theorem claim_C6_witness :
    resetOutputDirectory FsNode.absent = some (FsNode.dir []) :=
  (claim_C6_reset FsNode.absent).1 (by decide)

/-- C8: the explicit cleanup call on the temporary directory executes exactly
when the run terminates without error; every abort path stops before it. -/
theorem claim_C8_cleanup_iff (i : RunInput) :
    (run i).cleanupRan = true ↔ (run i).error = none := by
  unfold run
  split
  · simp
  · split
    · simp
    · unfold globAndMove
      split
      · simp
      · split <;> simp

/-- A run where the restore succeeds but only one file matches, with an old
output directory in place. -/
def fewInput : RunInput := ⟨0, [dll "p1" "a1.dll"], FsNode.dir ["old"]⟩

/-- C1 counterexample: a run whose restore exits 0 and whose glob matches
eight files, two of which share a base name; the run aborts in the move loop
and the output directory does not contain the base names of all matched
files. -/
theorem claim_C1_counterexample :
    dupBaseInput.nugetReturnCode = 0 ∧
    EXPECTED_PLUGIN_COUNT ≤ (matchedFiles dupBaseInput).length ∧
    outputExactlyMatches dupBaseInput (run dupBaseInput) = false := by decide

/-- C1 (amended): for every run that terminates without error — which
entails that the restore exited 0 and at least eight files matched the glob —
the output path is a directory whose contents are exactly the base names of
the matched artifact files, flat. -/
theorem claim_C1_success_output (i : RunInput) (h : (run i).error = none) :
    i.nugetReturnCode = 0 ∧
    EXPECTED_PLUGIN_COUNT ≤ (matchedFiles i).length ∧
    outputExactlyMatches i (run i) = true := by
  by_cases hrc : 0 < i.nugetReturnCode
  · exfalso
    simp [run, hrc] at h
  · cases hres : resetOutputDirectory i.pluginsPrior with
    | none =>
      exfalso
      simp [run, hrc, hres] at h
    | some d =>
      have hrun : run i = globAndMove i.tempFiles := by simp [run, hrc, hres]
      rw [hrun] at h ⊢
      by_cases hlen : (matchedOf i.tempFiles).length < EXPECTED_PLUGIN_COUNT
      · exfalso
        simp [globAndMove, hlen] at h
      · cases hm : moveAll (matchedOf i.tempFiles) i.tempFiles [] with
        | collision t' o' =>
          exfalso
          simp [globAndMove, hlen, hm] at h
        | ok t' o' =>
          have hout : o' = [] ++ (matchedOf i.tempFiles).map baseName :=
            moveAll_ok_out _ _ _ _ _ hm
          refine ⟨by omega, not_lt.mp hlen, ?_⟩
          simp only [List.nil_append] at hout
          simp [globAndMove, hlen, hm, outputExactlyMatches, hout, matchedFiles,
            List.all_eq_true]

/-- Witness for C1 at a run with eight distinct matched files. -/
theorem claim_C1_witness :
    okInput.nugetReturnCode = 0 ∧
    EXPECTED_PLUGIN_COUNT ≤ (matchedFiles okInput).length ∧
    outputExactlyMatches okInput (run okInput) = true :=
  claim_C1_success_output okInput (by decide)

/-- C3 counterexample: a run whose restore exits 0 and whose glob matches
fewer than eight files, yet the insufficient-artifacts error is not raised:
a non-directory entry occupies the output path, so the run aborts earlier at
`os.mkdir`. -/
theorem claim_C3_counterexample :
    priorEntryInput.nugetReturnCode = 0 ∧
    (matchedFiles priorEntryInput).length < EXPECTED_PLUGIN_COUNT ∧
    (run priorEntryInput).error ≠ some RunError.insufficientArtifacts := by decide

/-- C3 (amended): for every run in which the restore succeeds and the
output-directory reset succeeds (no non-directory entry occupies the output
path), the insufficient-artifacts error is raised exactly when fewer than
eight files match the glob; with eight or more matches the run proceeds to
the move loop. -/
theorem claim_C3_threshold (i : RunInput) (h0 : i.nugetReturnCode = 0)
    (hr : resetOutputDirectory i.pluginsPrior ≠ none) :
    ((run i).error = some RunError.insufficientArtifacts ↔
      (matchedFiles i).length < EXPECTED_PLUGIN_COUNT) ∧
    (EXPECTED_PLUGIN_COUNT ≤ (matchedFiles i).length →
      (run i).error = none ∨ (run i).error = some RunError.moveCollision) := by
  have hrc : ¬ 0 < i.nugetReturnCode := by omega
  cases hres : resetOutputDirectory i.pluginsPrior with
  | none => exact absurd hres hr
  | some d =>
    have hrun : run i = globAndMove i.tempFiles := by simp [run, hrc, hres]
    rw [hrun]
    by_cases hlen : (matchedOf i.tempFiles).length < EXPECTED_PLUGIN_COUNT
    · refine ⟨by simp [globAndMove, hlen, matchedFiles], ?_⟩
      intro hge
      exact absurd hlen (not_lt.mpr hge)
    · cases hm : moveAll (matchedOf i.tempFiles) i.tempFiles [] with
      | collision t' o' =>
        refine ⟨?_, fun _ => Or.inr (by simp [globAndMove, hlen, hm])⟩
        simp only [globAndMove, hlen, if_false, hm]
        simp [matchedFiles]
        exact not_lt.mp hlen
      | ok t' o' =>
        refine ⟨?_, fun _ => Or.inl (by simp [globAndMove, hlen, hm])⟩
        simp only [globAndMove, hlen, if_false, hm]
        simp [matchedFiles]
        exact not_lt.mp hlen

/-- Witness for C3 at a run with one matched file and an old output
directory in place. -/
theorem claim_C3_witness :
    ((run fewInput).error = some RunError.insufficientArtifacts ↔
      (matchedFiles fewInput).length < EXPECTED_PLUGIN_COUNT) ∧
    (EXPECTED_PLUGIN_COUNT ≤ (matchedFiles fewInput).length →
      (run fewInput).error = none ∨ (run fewInput).error = some RunError.moveCollision) :=
  claim_C3_threshold fewInput rfl (by decide)

/-- C5 counterexample: a run whose restore exits 0 and whose glob matches
fewer than eight files, yet at termination the output path is not an empty
directory: a non-directory entry occupied it, the reset raised at `os.mkdir`
and the entry is still there. -/
theorem claim_C5_counterexample :
    priorEntryInput.nugetReturnCode = 0 ∧
    (matchedFiles priorEntryInput).length < EXPECTED_PLUGIN_COUNT ∧
    (run priorEntryInput).pluginsOutput ≠ FsNode.dir [] := by decide

/-- C5 (amended): for every run in which the restore succeeds, the
output-directory reset succeeds (no non-directory entry occupies the output
path) and fewer than eight files match the glob, the run aborts with the
insufficient-artifacts error after the reset ran and before any move, leaving
the output path an existing empty directory; the cleanup is never reached. -/
theorem claim_C5_abort_after_reset (i : RunInput) (h0 : i.nugetReturnCode = 0)
    (hr : resetOutputDirectory i.pluginsPrior ≠ none)
    (hlt : (matchedFiles i).length < EXPECTED_PLUGIN_COUNT) :
    (run i).error = some RunError.insufficientArtifacts ∧
    (run i).resetRan = true ∧
    (run i).pluginsOutput = FsNode.dir [] ∧
    (run i).cleanupRan = false := by
  have hrc : ¬ 0 < i.nugetReturnCode := by omega
  cases hres : resetOutputDirectory i.pluginsPrior with
  | none => exact absurd hres hr
  | some d =>
    have hrun : run i = globAndMove i.tempFiles := by simp [run, hrc, hres]
    rw [hrun]
    simp only [matchedFiles, matchedOf] at hlt
    simp [globAndMove, matchedOf, hlt]

/-- Witness for C5 at a run with one matched file and an old output
directory in place. -/
theorem claim_C5_witness :
    (run fewInput).error = some RunError.insufficientArtifacts ∧
    (run fewInput).resetRan = true ∧
    (run fewInput).pluginsOutput = FsNode.dir [] ∧
    (run fewInput).cleanupRan = false :=
  claim_C5_abort_after_reset fewInput rfl (by decide) (by decide)

/-- C7: staging relocates rather than copies — for every run that terminates
without error (on a temporary directory listing without duplicate paths),
every matched file is gone from its original nested location when the move
loop finishes, and its base name is in the flat output directory; the
temporary directory itself is deleted by the cleanup. -/
theorem claim_C7_relocation (i : RunInput) (h : (run i).error = none)
    (hnd : i.tempFiles.Nodup) :
    (run i).tempDir = none ∧
    ∀ p ∈ matchedFiles i, p ∉ (run i).tempAfterMoves ∧
      ∃ l, (run i).pluginsOutput = FsNode.dir l ∧ baseName p ∈ l := by
  by_cases hrc : 0 < i.nugetReturnCode
  · exfalso
    simp [run, hrc] at h
  · cases hres : resetOutputDirectory i.pluginsPrior with
    | none =>
      exfalso
      simp [run, hrc, hres] at h
    | some d =>
      have hrun : run i = globAndMove i.tempFiles := by simp [run, hrc, hres]
      rw [hrun] at h ⊢
      by_cases hlen : (matchedOf i.tempFiles).length < EXPECTED_PLUGIN_COUNT
      · exfalso
        simp [globAndMove, hlen] at h
      · cases hm : moveAll (matchedOf i.tempFiles) i.tempFiles [] with
        | collision t' o' =>
          exfalso
          simp [globAndMove, hlen, hm] at h
        | ok t' o' =>
          refine ⟨by simp [globAndMove, hlen, hm], ?_⟩
          intro p hp
          have hp' : p ∈ matchedOf i.tempFiles := hp
          constructor
          · have := moveAll_ok_not_mem_temp _ _ _ _ _ hnd hm p hp'
            simpa [globAndMove, hlen, hm] using this
          · refine ⟨o', by simp [globAndMove, hlen, hm], ?_⟩
            rw [moveAll_ok_out _ _ _ _ _ hm]
            simpa using List.mem_map_of_mem baseName hp'

/-- Witness for C7 at a run with eight distinct matched files. -/
theorem claim_C7_witness :
    (run okInput).tempDir = none ∧
    ∀ p ∈ matchedFiles okInput, p ∉ (run okInput).tempAfterMoves ∧
      ∃ l, (run okInput).pluginsOutput = FsNode.dir l ∧ baseName p ∈ l :=
  claim_C7_relocation okInput (by decide) (by decide)

/-- C9: running the script twice in a row with the same restore behavior
(same exit code, same files deposited in the temporary directory) leaves the
output path after the second run exactly as it was after the first: the
reset-then-repopulate cycle makes the run idempotent. -/
theorem claim_C9_idempotent (i : RunInput) :
    (run { i with pluginsPrior := (run i).pluginsOutput }).pluginsOutput =
      (run i).pluginsOutput := by
  by_cases hrc : 0 < i.nugetReturnCode
  · simp [run, hrc]
  · cases hres : resetOutputDirectory i.pluginsPrior with
    | none =>
      have hentry : i.pluginsPrior = FsNode.entry :=
        (resetOutputDirectory_eq_none_iff _).mp hres
      have hnone : resetOutputDirectory FsNode.entry = none :=
        (resetOutputDirectory_eq_none_iff _).mpr rfl
      simp [run, hrc, hentry, hnone, rmtreeIfDir, existsAndIsDir]
    | some d =>
      have h1 : run i = globAndMove i.tempFiles := by simp [run, hrc, hres]
      obtain ⟨l, hl⟩ := globAndMove_pluginsOutput_dir i.tempFiles
      have h2 : resetOutputDirectory (run i).pluginsOutput =
          some (FsNode.dir []) := by
        rw [h1, hl]
        simp [resetOutputDirectory, rmtreeIfDir, existsAndIsDir, mkdir]
      rw [h1] at h2 ⊢
      simp [run, hrc, h2]

/-- C10: when the restore succeeds, the reset succeeds, at least eight files
match and two matched files share a base name, the move loop raises the
`shutil.Error` collision and aborts the run before the cleanup, rather than
silently overwriting: the output directory contents stay duplicate-free. -/
theorem claim_C10_collision (i : RunInput) (h0 : i.nugetReturnCode = 0)
    (hr : resetOutputDirectory i.pluginsPrior ≠ none)
    (hlen : EXPECTED_PLUGIN_COUNT ≤ (matchedFiles i).length)
    (hdup : ¬ ((matchedFiles i).map baseName).Nodup) :
    (run i).error = some RunError.moveCollision ∧
    (run i).cleanupRan = false ∧
    ∃ l, (run i).pluginsOutput = FsNode.dir l ∧ l.Nodup := by
  have hrc : ¬ 0 < i.nugetReturnCode := by omega
  cases hres : resetOutputDirectory i.pluginsPrior with
  | none => exact absurd hres hr
  | some d =>
    have hrun : run i = globAndMove i.tempFiles := by simp [run, hrc, hres]
    rw [hrun]
    have hlen' : ¬ (matchedOf i.tempFiles).length < EXPECTED_PLUGIN_COUNT :=
      not_lt.mpr hlen
    cases hm : moveAll (matchedOf i.tempFiles) i.tempFiles [] with
    | ok t' o' =>
      exact absurd (moveAll_ok_bases _ _ _ _ _ hm).1 hdup
    | collision t' o' =>
      refine ⟨by simp [globAndMove, hlen', hm], by simp [globAndMove, hlen', hm],
        o', by simp [globAndMove, hlen', hm], ?_⟩
      exact moveAll_collision_out_nodup _ _ _ _ _ List.nodup_nil hm

/-- Witness for C10 at a run with eight matched files, two sharing the base
name `a.dll`. -/
theorem claim_C10_witness :
    (run dupBaseInput).error = some RunError.moveCollision ∧
    (run dupBaseInput).cleanupRan = false ∧
    ∃ l, (run dupBaseInput).pluginsOutput = FsNode.dir l ∧ l.Nodup :=
  claim_C10_collision dupBaseInput rfl (by decide) (by decide) (by decide)

end GetPackages
